import Mathlib

/-
Verification development for the hag HVAC controller.

The decision engine (master state machine, heating strategy with defrost
timing, cooling strategy), the controller's outdoor-value substitution,
the hub client's message-id counter and the WebSocket message parsing are
embedded shallowly below, following the Python source:
  src/hag/hvac/state_machine.py
  src/hag/hvac/strategies/heating_strategy.py
  src/hag/hvac/strategies/cooling_strategy.py
  src/hag/hvac/controller.py
  src/hag/home_assistant/client.py
  src/hag/home_assistant/models.py

Temperatures are rationals, wall-clock instants are integers counting
seconds (a `now` parameter stands for each call of `datetime.now()`).
Python truthiness on optional numbers (`x or d`, `if x and ...`) is
modelled explicitly: `None` and `0.0` are falsy.
-/

namespace Hag

/-- Python `x or default` on an optional rational: `None` and `0.0` are
falsy and give the default (controller.py line 330, state_machine.py
line 158). -/
def pyOrQ (o : Option ℚ) (d : ℚ) : ℚ :=
  match o with
  | none => d
  | some v => if v = 0 then d else v

/-- Python `x or default` on an optional integer hour (state_machine.py
line 160: `self.state_data.current_hour or 12`): `None` and `0` are
falsy. -/
def pyOrI (o : Option ℤ) (d : ℤ) : ℤ :=
  match o with
  | none => d
  | some v => if v = 0 then d else v

/-- Python truthiness of an optional bool (`if self.is_weekday` in
`HVACState.should_be_active`): only `Some true` is truthy. -/
def pyTruthyB (o : Option Bool) : Bool :=
  match o with
  | some b => b
  | none => false

/-- `SystemMode` from config/settings.py. -/
inductive SystemMode where
  | auto
  | heat_only
  | cool_only
  | off
  deriving DecidableEq, Repr

/-- `HVACMode` from hvac/state_machine.py. -/
inductive HVACMode where
  | heat
  | cool
  | off
  deriving DecidableEq, Repr

/-- `TemperatureThresholds` from config/settings.py. -/
structure TemperatureThresholds where
  indoor_min : ℚ
  indoor_max : ℚ
  outdoor_min : ℚ
  outdoor_max : ℚ
  deriving DecidableEq, Repr

/-- `DefrostOptions` from config/settings.py. -/
structure DefrostOptions where
  temperature_threshold : ℚ
  period_seconds : ℤ
  duration_seconds : ℤ
  deriving DecidableEq, Repr

/-- `HeatingOptions` from config/settings.py. -/
structure HeatingOptions where
  temperature : ℚ
  preset_mode : String
  temperature_thresholds : TemperatureThresholds
  defrost : Option DefrostOptions
  deriving DecidableEq, Repr

/-- `CoolingOptions` from config/settings.py. -/
structure CoolingOptions where
  temperature : ℚ
  preset_mode : String
  temperature_thresholds : TemperatureThresholds
  deriving DecidableEq, Repr

/-- `ActiveHours` from config/settings.py; `end` is a Lean keyword so the
field is `end_hour`. -/
structure ActiveHours where
  start : ℤ
  start_weekday : ℤ
  end_hour : ℤ
  deriving DecidableEq, Repr

/-- `HvacOptions` from config/settings.py (the fields the decision engine
reads). -/
structure HvacOptions where
  system_mode : SystemMode
  heating : HeatingOptions
  cooling : CoolingOptions
  active_hours : Option ActiveHours
  deriving DecidableEq, Repr

/-- `StateChangeData` from hvac/state_machine.py. -/
structure StateChangeData where
  current_temp : ℚ
  weather_temp : ℚ
  hour : ℤ
  is_weekday : Bool
  deriving DecidableEq, Repr

/-- Heating strategy machine states (`off`, `heating`, `defrosting` in
strategies/heating_strategy.py). -/
inductive HeatingState where
  | off
  | heating
  | defrosting
  deriving DecidableEq, Repr

/-- `HeatingStrategy` mutable state: machine state plus the two defrost
timestamps (strategies/heating_strategy.py `__init__`). -/
structure HeatingStrategy where
  hvac_options : HvacOptions
  state : HeatingState
  defrost_last : Option ℤ
  defrost_current : Option ℤ
  deriving DecidableEq, Repr

namespace HeatingStrategy

/-- `HeatingStrategy._can_operate`: outdoor bounds and active hours.
Note the source uses `start_weekday` for weekday and `start` otherwise
(the swapped reading; see spec section 4.B). -/
def can_operate (s : HeatingStrategy) (data : StateChangeData) : Bool :=
  let ht := s.hvac_options.heating.temperature_thresholds
  let weather_ok :=
    decide (ht.outdoor_min ≤ data.weather_temp) &&
    decide (data.weather_temp ≤ ht.outdoor_max)
  let hours_ok :=
    match s.hvac_options.active_hours with
    | some ah =>
        let start_hour := if data.is_weekday then ah.start_weekday else ah.start
        decide (start_hour ≤ data.hour) && decide (data.hour ≤ ah.end_hour)
    | none => true
  weather_ok && hours_ok

/-- `HeatingStrategy._is_temp_too_low`. -/
def is_temp_too_low (s : HeatingStrategy) (data : StateChangeData) : Bool :=
  decide (data.current_temp < s.hvac_options.heating.temperature_thresholds.indoor_min)

/-- `HeatingStrategy._is_temp_too_high`. -/
def is_temp_too_high (s : HeatingStrategy) (data : StateChangeData) : Bool :=
  decide (data.current_temp > s.hvac_options.heating.temperature_thresholds.indoor_max)

/-- `HeatingStrategy._need_defrost_cycle` (`now` stands for
`datetime.now()`). -/
def need_defrost_cycle (s : HeatingStrategy) (data : StateChangeData) (now : ℤ) : Bool :=
  match s.hvac_options.heating.defrost with
  | none => false
  | some defrost_config =>
    if data.weather_temp > defrost_config.temperature_threshold then false
    else
      match s.defrost_last with
      | some t => if now - t < defrost_config.period_seconds then false else true
      | none => true

/-- `HeatingStrategy._is_defrost_cycle_completed`. -/
def is_defrost_cycle_completed (s : HeatingStrategy) (now : ℤ) : Bool :=
  match s.defrost_current with
  | none => false
  | some t =>
    match s.hvac_options.heating.defrost with
    | none => true
    | some defrost_config => decide (now - t ≥ defrost_config.duration_seconds)

/-- `HeatingStrategy.process_state_change`: the transition table of
strategies/heating_strategy.py lines 75-117.  Starting a defrost sets
`defrost_current := now` (`_start_defrost`); a completed defrost sets
`defrost_last := now` and clears `defrost_current` (`_stop_defrost`);
the not-complete, cannot-operate exit from Defrost performs only the
state transition (`stop_defrost` then `_switch_or_stay_off`, which just
logs). -/
def process_state_change (s : HeatingStrategy) (data : StateChangeData) (now : ℤ) :
    HeatingStrategy × String :=
  let c := s.can_operate data
  let low := s.is_temp_too_low data
  let high := s.is_temp_too_high data
  let nd := s.need_defrost_cycle data now
  let complete := s.is_defrost_cycle_completed now
  match s.state with
  | .off =>
    if c && low && nd then
      ({ s with state := .defrosting, defrost_current := some now }, "defrosting")
    else if c && low then
      ({ s with state := .heating }, "heating")
    else
      (s, "off")
  | .heating =>
    if c && nd then
      ({ s with state := .defrosting, defrost_current := some now }, "defrosting")
    else if !c || high then
      ({ s with state := .off }, "off")
    else
      (s, "heating")
  | .defrosting =>
    if complete then
      ({ s with state := .off, defrost_last := some now, defrost_current := none }, "off")
    else if !c then
      ({ s with state := .off }, "off")
    else
      (s, "defrosting")

end HeatingStrategy

/-- Cooling strategy machine states (strategies/cooling_strategy.py). -/
inductive CoolingState where
  | cooling_off
  | cooling
  deriving DecidableEq, Repr

/-- `CoolingStrategy` mutable state. -/
structure CoolingStrategy where
  hvac_options : HvacOptions
  state : CoolingState
  deriving DecidableEq, Repr

namespace CoolingStrategy

/-- `CoolingStrategy._can_operate` (same swapped active-hours reading as
the heating strategy). -/
def can_operate (s : CoolingStrategy) (data : StateChangeData) : Bool :=
  let ct := s.hvac_options.cooling.temperature_thresholds
  let weather_ok :=
    decide (ct.outdoor_min ≤ data.weather_temp) &&
    decide (data.weather_temp ≤ ct.outdoor_max)
  let hours_ok :=
    match s.hvac_options.active_hours with
    | some ah =>
        let start_hour := if data.is_weekday then ah.start_weekday else ah.start
        decide (start_hour ≤ data.hour) && decide (data.hour ≤ ah.end_hour)
    | none => true
  weather_ok && hours_ok

/-- `CoolingStrategy._is_temp_too_low`. -/
def is_temp_too_low (s : CoolingStrategy) (data : StateChangeData) : Bool :=
  decide (data.current_temp < s.hvac_options.cooling.temperature_thresholds.indoor_min)

/-- `CoolingStrategy._is_temp_too_high`. -/
def is_temp_too_high (s : CoolingStrategy) (data : StateChangeData) : Bool :=
  decide (data.current_temp > s.hvac_options.cooling.temperature_thresholds.indoor_max)

/-- `CoolingStrategy.process_state_change` (cooling_strategy.py lines
68-88). -/
def process_state_change (s : CoolingStrategy) (data : StateChangeData) :
    CoolingStrategy × String :=
  let c := s.can_operate data
  let low := s.is_temp_too_low data
  let high := s.is_temp_too_high data
  match s.state with
  | .cooling_off =>
    if c && high then
      ({ s with state := .cooling }, "cooling")
    else
      (s, "cooling_off")
  | .cooling =>
    if !c || low then
      ({ s with state := .cooling_off }, "cooling_off")
    else
      (s, "cooling")

end CoolingStrategy

/-- `HVACState` from hvac/state_machine.py: the master machine's
observation container. -/
structure HVACStateData where
  hvac_options : HvacOptions
  current_temp : Option ℚ
  outdoor_temp : Option ℚ
  current_hour : Option ℤ
  is_weekday : Option Bool
  defrost_needed : Bool
  deriving DecidableEq, Repr

namespace HVACStateData

/-- `HVACState.should_be_active` (state_machine.py lines 67-78): the
master machine uses `start` for weekdays and `start_weekday` otherwise
(the opposite of the strategies), and Python truthiness on the optional
`is_weekday`. -/
def should_be_active (sd : HVACStateData) : Bool :=
  match sd.hvac_options.active_hours with
  | none => true
  | some active_hours =>
    match sd.current_hour with
    | none => true
    | some h =>
      let start_hour :=
        if pyTruthyB sd.is_weekday then active_hours.start
        else active_hours.start_weekday
      decide (start_hour ≤ h) && decide (h ≤ active_hours.end_hour)

/-- `HVACStateMachine._has_valid_conditions` (state_machine.py lines
181-185): checks indoor temperature, outdoor temperature and hour; it
does not check `is_weekday`. -/
def has_valid_conditions (sd : HVACStateData) : Bool :=
  sd.current_temp.isSome && sd.outdoor_temp.isSome && sd.current_hour.isSome

/-- `HVACStateMachine._determine_target_mode` (state_machine.py lines
187-283).  The urgent branches are guarded by Python truthiness of
`indoor_temp` (`if indoor_temp and ...`), so an indoor reading of
exactly 0.0 skips them. -/
def determine_target_mode (sd : HVACStateData) : SystemMode :=
  let options := sd.hvac_options
  match options.system_mode with
  | .heat_only => .heat_only
  | .cool_only => .cool_only
  | .off => .off
  | .auto =>
    let ht := options.heating.temperature_thresholds
    let ct := options.cooling.temperature_thresholds
    let urgent_heat :=
      match sd.current_temp with
      | none => false
      | some it =>
        !decide (it = 0) && decide (it < ht.indoor_min) &&
        (match sd.outdoor_temp with
         | some ot => decide (ht.outdoor_min ≤ ot) && decide (ot ≤ ht.outdoor_max)
         | none => false)
    if urgent_heat then .heat_only
    else
      let urgent_cool :=
        match sd.current_temp with
        | none => false
        | some it =>
          !decide (it = 0) && decide (it > ct.indoor_max) &&
          (match sd.outdoor_temp with
           | some ot => decide (ct.outdoor_min ≤ ot) && decide (ot ≤ ct.outdoor_max)
           | none => false)
      if urgent_cool then .cool_only
      else
        let heating_can_operate :=
          match sd.outdoor_temp with
          | some ot => decide (ht.outdoor_min ≤ ot) && decide (ot ≤ ht.outdoor_max)
          | none => false
        let cooling_can_operate :=
          match sd.outdoor_temp with
          | some ot => decide (ct.outdoor_min ≤ ot) && decide (ot ≤ ct.outdoor_max)
          | none => false
        if heating_can_operate && cooling_can_operate then
          let mid_temp := (ht.outdoor_max + ct.outdoor_min) / 2
          match sd.outdoor_temp with
          | some ot => if ot ≤ mid_temp then .heat_only else .cool_only
          | none => .cool_only
        else if heating_can_operate then .heat_only
        else if cooling_can_operate then .cool_only
        else .off

end HVACStateData

/-- Master machine states (state_machine.py). -/
inductive MasterState where
  | idle
  | heating
  | cooling
  | defrost
  deriving DecidableEq, Repr

/-- Result of one `evaluate_conditions` call: a returned `HVACMode`,
Python `None` (missing observations), or a propagated
`TransitionNotAllowed` exception (the `start_defrost` transition is only
declared from Heating and Idle). -/
inductive EvalResult where
  | mode (m : HVACMode)
  | noneResult
  | errored
  deriving DecidableEq, Repr

/-- `HVACStateMachine`: master state plus observation container and the
two strategy machines. -/
structure HVACStateMachine where
  state_data : HVACStateData
  heating_strategy : HeatingStrategy
  cooling_strategy : CoolingStrategy
  state : MasterState
  deriving DecidableEq, Repr

namespace HVACStateMachine

/-- `HVACStateMachine.__init__`: initial state Idle, strategies at their
initial states, no observations, no defrost timestamps. -/
def init (options : HvacOptions) : HVACStateMachine where
  state_data := ⟨options, none, none, none, none, false⟩
  heating_strategy := ⟨options, .off, none, none⟩
  cooling_strategy := ⟨options, .cooling_off⟩
  state := .idle

/-- `HVACStateMachine._transition_to_idle` (state_machine.py lines
385-397); leaving Defrost fires `on_exit_defrost`, which clears
`defrost_needed`. -/
def transition_to_idle (m : HVACStateMachine) : HVACStateMachine :=
  match m.state with
  | .defrost =>
      { m with state := .idle,
               state_data := { m.state_data with defrost_needed := false } }
  | _ => { m with state := .idle }

/-- `HVACStateMachine._execute_mode_transition_with_strategies`
(state_machine.py lines 285-361).  In the heat branch with strategy
result `"defrosting"`, `start_defrost` is declared only from Heating and
Idle; from Cooling the library raises `TransitionNotAllowed` after the
heating strategy has already been mutated. -/
def execute_mode_transition_with_strategies (m : HVACStateMachine)
    (target_mode : SystemMode) (data : StateChangeData) (now : ℤ) :
    HVACStateMachine × EvalResult :=
  match target_mode with
  | .heat_only =>
    let sr := m.heating_strategy.process_state_change data now
    let m1 := { m with heating_strategy := sr.1 }
    if sr.2 = "heating" then
      if m1.state = .idle then ({ m1 with state := .heating }, .mode .heat)
      else if m1.state = .cooling then ({ m1 with state := .heating }, .mode .heat)
      else (m1, .mode .heat)
    else if sr.2 = "defrosting" then
      if m1.state ≠ .defrost then
        match m1.state with
        | .heating => ({ m1 with state := .defrost }, .mode .off)
        | .idle => ({ m1 with state := .defrost }, .mode .off)
        | _ => (m1, .errored)
      else (m1, .mode .off)
    else
      (m1.transition_to_idle, .mode .off)
  | .cool_only =>
    let sr := m.cooling_strategy.process_state_change data
    let m1 := { m with cooling_strategy := sr.1 }
    if sr.2 = "cooling" then
      if m1.state = .idle then ({ m1 with state := .cooling }, .mode .cool)
      else if m1.state = .heating then ({ m1 with state := .cooling }, .mode .cool)
      else (m1, .mode .cool)
    else
      (m1.transition_to_idle, .mode .off)
  | _ =>
    (m.transition_to_idle, .mode .off)

/-- `HVACStateMachine.evaluate_conditions` (state_machine.py lines
127-179).  The `StateChangeData` handed to the strategies substitutes
falsy observations (`or 20.0`, `or 12`, `if ... is not None else True`),
per lines 156-162. -/
def evaluate_conditions (m : HVACStateMachine) (now : ℤ) :
    HVACStateMachine × EvalResult :=
  if !m.state_data.has_valid_conditions then (m, .noneResult)
  else if !m.state_data.should_be_active then (m.transition_to_idle, .mode .off)
  else
    let data : StateChangeData :=
      { current_temp := pyOrQ m.state_data.current_temp 20
        weather_temp := pyOrQ m.state_data.outdoor_temp 20
        hour := pyOrI m.state_data.current_hour 12
        is_weekday := (m.state_data.is_weekday).getD true }
    let target_mode := m.state_data.determine_target_mode
    m.execute_mode_transition_with_strategies target_mode data now

/-- `HVACStateMachine.update_conditions` together with
`HVACState.update_conditions`: store the four observations, set
`defrost_needed` when configured and cold enough, then evaluate. -/
def update_conditions (m : HVACStateMachine) (indoor_temp outdoor_temp : ℚ)
    (hour : ℤ) (is_weekday : Bool) (now : ℤ) : HVACStateMachine × EvalResult :=
  let sd := m.state_data
  let defrost_needed :=
    match sd.hvac_options.heating.defrost with
    | some d => if outdoor_temp ≤ d.temperature_threshold then true else sd.defrost_needed
    | none => sd.defrost_needed
  let m1 := { m with state_data :=
    { sd with current_temp := some indoor_temp
              outdoor_temp := some outdoor_temp
              current_hour := some hour
              is_weekday := some is_weekday
              defrost_needed := defrost_needed } }
  m1.evaluate_conditions now

end HVACStateMachine

/-- `HomeAssistantClient` mutable state relevant to message ids
(home_assistant/client.py `__init__` lines 25-33): the id counter starts
at 1 and is never written anywhere else but the `+= 1` in
`call_service` and `subscribe_events`. -/
structure HomeAssistantClient where
  message_id : ℤ
  connected : Bool
  running : Bool
  deriving DecidableEq, Repr

namespace HomeAssistantClient

/-- `HomeAssistantClient.__init__`. -/
def init : HomeAssistantClient where
  message_id := 1
  connected := false
  running := false

/-- Successful `connect()` (client.py lines 35-74): sets `connected` and
`running`; the id counter is untouched. -/
def connect_success (c : HomeAssistantClient) : HomeAssistantClient :=
  { c with connected := true, running := true }

/-- `call_service` frame send (client.py lines 143-177): uses the current
`message_id` in the outgoing frame, then increments the counter.
Returns the new client state and the id carried by the frame. -/
def call_service (c : HomeAssistantClient) : HomeAssistantClient × ℤ :=
  ({ c with message_id := c.message_id + 1 }, c.message_id)

/-- `subscribe_events` frame send (client.py lines 179-195): same id
handling as `call_service`. -/
def subscribe_events (c : HomeAssistantClient) : HomeAssistantClient × ℤ :=
  ({ c with message_id := c.message_id + 1 }, c.message_id)

/-- The `finally` block of `_message_loop` when the connection drops
(client.py lines 234-239): clears `connected` and spawns `_reconnect`. -/
def connection_lost (c : HomeAssistantClient) : HomeAssistantClient :=
  { c with connected := false }

/-- Successful `_reconnect` (client.py lines 275-297): re-establishes the
WebSocket and sets `connected := true`.  It does not write
`message_id`. -/
def reconnect_success (c : HomeAssistantClient) : HomeAssistantClient :=
  { c with connected := true }

end HomeAssistantClient

/-- The raw `event` sub-dictionary of an incoming frame, as read by
`HassEvent.from_dict` (home_assistant/models.py lines 86-103): optional
fields stand for `dict.get` / `KeyError` on indexing. -/
structure RawEvent where
  event_type : Option String
  data_field : Option String
  origin : Option String
  time_fired : Option String
  deriving DecidableEq, Repr

/-- `HassEvent` (models.py): the event body after parsing; the `data`
payload is kept opaque as the raw string, `time_fired` as an instant. -/
structure HassEvent where
  event_type : String
  data : Option String
  origin : String
  time_fired : ℤ
  deriving DecidableEq, Repr

/-- `HassEvent.from_dict` (models.py lines 86-103), parameterised by the
standard library's `datetime.fromisoformat` (`parse_ts`): missing
`event_type` or `time_fired` raise `KeyError`, a malformed timestamp
raises `ValueError`; all are re-raised as `ValueError`, modelled as
`none`.  The source first replaces a trailing `Z` by `+00:00`. -/
def HassEvent.from_dict (parse_ts : String → Option ℤ) (raw : RawEvent) :
    Option HassEvent :=
  match raw.event_type with
  | none => none
  | some et =>
    match raw.time_fired with
    | none => none
    | some ts_str =>
      match parse_ts (ts_str.replace "Z" "+00:00") with
      | none => none
      | some ts => some ⟨et, raw.data_field, raw.origin.getD "LOCAL", ts⟩

/-- An incoming WebSocket frame body, as read by
`WebSocketMessage.from_dict` (models.py lines 153-173). -/
structure RawWsMessage where
  type_field : Option String
  id_field : Option ℤ
  success_field : Option Bool
  result_field : Option String
  error_field : Option String
  event_field : Option RawEvent
  deriving DecidableEq, Repr

/-- `WebSocketMessage` (models.py lines 143-151). -/
structure WebSocketMessage where
  message_type : String
  message_id : Option ℤ
  success : Option Bool
  result : Option String
  error : Option String
  event : Option HassEvent
  deriving DecidableEq, Repr

/-- `WebSocketMessage.from_dict` (models.py lines 153-173): the event is
parsed only for frames of type `"event"` with an `event` key; a
`ValueError` from `HassEvent.from_dict` is caught, logged, and leaves
`event = None`. -/
def WebSocketMessage.from_dict (parse_ts : String → Option ℤ)
    (raw : RawWsMessage) : WebSocketMessage :=
  let msg_type := raw.type_field.getD "unknown"
  let event :=
    if msg_type = "event" then
      match raw.event_field with
      | some re => HassEvent.from_dict parse_ts re
      | none => none
    else none
  ⟨msg_type, raw.id_field, raw.success_field, raw.result_field,
   raw.error_field, event⟩

/-- `HomeAssistantClient._handle_message` dispatch (client.py lines
241-273): handlers registered for the event's type are invoked in
registration order; a message without a parsed event dispatches to
nobody.  Handlers are abstract tokens; the function returns the list of
handlers invoked for the frame. -/
def handle_message (msg : WebSocketMessage)
    (event_handlers : List (String × List ℕ)) : List ℕ :=
  match msg.event with
  | some e =>
    match event_handlers.lookup e.event_type with
    | some hs => hs
    | none => []
  | none => []

/-- Frame kinds seen by `_message_loop` (client.py lines 214-232). -/
inductive WSFrame where
  | text (raw : RawWsMessage)
  | wsError
  | wsClose
  deriving DecidableEq, Repr

/-- Whether the receive loop continues after a frame. -/
inductive LoopAction where
  | continue_loop
  | break_loop
  deriving DecidableEq, Repr

/-- One iteration of `_message_loop` (client.py lines 214-232): a TEXT
frame is handed to `_handle_message`, whose body catches every
exception, so the loop always continues; ERROR and CLOSE frames break
the loop. -/
def message_loop_step (f : WSFrame) : LoopAction :=
  match f with
  | .text _ => .continue_loop
  | .wsError => .break_loop
  | .wsClose => .break_loop

/-- The controller's outdoor-temperature substitution
(`outdoor_temp or 20.0`, controller.py lines 330 and 381): the fetched
value is `none` on REST failure or a non-numeric state; Python `or`
also replaces a numeric reading of exactly `0.0` by the default. -/
def controller_outdoor_value (fetched : Option ℚ) : ℚ :=
  pyOrQ fetched 20

/-- Fixture configuration from the spec's section 8 scenarios: heating
indoor 19.7-20.2, outdoor -10-15, setpoint 21, preset "comfort";
cooling indoor 23.5-25.0, outdoor 10-45, setpoint 24, preset
"windFree"; defrost threshold 0.0, period 3600 s, duration 300 s. -/
def fixtureOptions : HvacOptions where
  system_mode := .auto
  heating :=
    { temperature := 21
      preset_mode := "comfort"
      temperature_thresholds :=
        { indoor_min := 19.7, indoor_max := 20.2, outdoor_min := -10, outdoor_max := 15 }
      defrost := some { temperature_threshold := 0, period_seconds := 3600, duration_seconds := 300 } }
  cooling :=
    { temperature := 24
      preset_mode := "windFree"
      temperature_thresholds :=
        { indoor_min := 23.5, indoor_max := 25, outdoor_min := 10, outdoor_max := 45 }
  }
  active_hours := none

/-- The fixture with the spec's active hours (weekday 8-21, weekend
7-21; the source field named `start_weekday` holds the weekend start). -/
def fixtureOptionsActive : HvacOptions :=
  { fixtureOptions with
      active_hours := some { start := 8, start_weekday := 7, end_hour := 21 } }

/-
Concrete inputs used by counterexamples and witnesses.
-/

/-- A valid configuration with integer-valued thresholds (heating indoor
20-21 outdoor -10-15, cooling indoor 24-25 outdoor 10-45, defrost
threshold 0 period 3600 s duration 300 s, auto mode, no active hours),
used for concrete evaluation traces. -/
def cexOptions : HvacOptions where
  system_mode := .auto
  heating :=
    { temperature := 21
      preset_mode := "comfort"
      temperature_thresholds :=
        { indoor_min := 20, indoor_max := 21, outdoor_min := -10, outdoor_max := 15 }
      defrost := some { temperature_threshold := 0, period_seconds := 3600, duration_seconds := 300 } }
  cooling :=
    { temperature := 24
      preset_mode := "windFree"
      temperature_thresholds :=
        { indoor_min := 24, indoor_max := 25, outdoor_min := 10, outdoor_max := 45 }
  }
  active_hours := none

/-- Heating strategy mid-defrost (cycle started at instant 0, no prior
defrost) under the fixture configuration. -/
def c1Strategy : HeatingStrategy :=
  ⟨fixtureOptions, .defrosting, none, some 0⟩

/-- Observation with the outdoor temperature below the heating outdoor
minimum, so `can_operate` is false. -/
def c1Data : StateChangeData := ⟨18, -20, 14, true⟩

/-
Claim C1.
-/

/-- Claim C1 counterexample: in state Defrost with the cycle not complete
and `can_operate` false (outdoor -20 below the heating outdoor minimum
-10, 10 s into a 300 s cycle), the strategy transitions to Off but does
NOT set `defrost_last` and does NOT clear `defrost_started`
(`defrost_current`): the abort branch runs `stop_defrost` and the
logging helper `_switch_or_stay_off`, not `_stop_defrost`. -/
theorem c1_defrost_abort_keeps_timestamps_cex :
    c1Strategy.is_defrost_cycle_completed 10 = false ∧
    c1Strategy.can_operate c1Data = false ∧
    (c1Strategy.process_state_change c1Data 10).1.state = HeatingState.off ∧
    (c1Strategy.process_state_change c1Data 10).2 = "off" ∧
    (c1Strategy.process_state_change c1Data 10).1.defrost_last ≠ some 10 ∧
    (c1Strategy.process_state_change c1Data 10).1.defrost_current ≠ none := by
  decide

/-- Claim C1 (amended): in state Defrost with the cycle not complete and
`can_operate` false, the strategy transitions to Off and returns "off",
leaving `defrost_last` and `defrost_started` (`defrost_current`)
unchanged. -/
theorem c1_defrost_abort_transitions_off (s : HeatingStrategy)
    (data : StateChangeData) (now : ℤ)
    (hs : s.state = HeatingState.defrosting)
    (hc : s.is_defrost_cycle_completed now = false)
    (hop : s.can_operate data = false) :
    s.process_state_change data now = ({ s with state := .off }, "off") := by
  simp [HeatingStrategy.process_state_change, hs, hc, hop]

/-- Witness for the amended claim C1 at the concrete abort input. -/
theorem c1_defrost_abort_transitions_off_witness :
    c1Strategy.process_state_change c1Data 10 =
      (⟨fixtureOptions, .off, none, some 0⟩, "off") :=
  c1_defrost_abort_transitions_off c1Strategy c1Data 10 rfl (by decide) (by decide)

/-
Claim C2.
-/

/-- A `"defrosting"` result from a strategy that was not already in
Defrost means a defrost cycle started, so `_need_defrost_cycle` held. -/
theorem heating_defrost_result_needs (s : HeatingStrategy)
    (data : StateChangeData) (now : ℤ)
    (hst : s.state ≠ HeatingState.defrosting)
    (h : (s.process_state_change data now).2 = "defrosting") :
    s.need_defrost_cycle data now = true := by
  cases hs : s.state with
  | off =>
    simp only [HeatingStrategy.process_state_change, hs] at h
    split at h
    · next hc => exact (Bool.and_eq_true_iff.mp hc).2
    · split at h <;> simp_all
  | heating =>
    simp only [HeatingStrategy.process_state_change, hs] at h
    split at h
    · next hc => exact (Bool.and_eq_true_iff.mp hc).2
    · split at h <;> simp_all
  | defrosting => exact absurd hs hst

/-- `_need_defrost_cycle` holding means defrost is configured and the
weather temperature is at or below its threshold. -/
theorem need_defrost_cycle_spec (s : HeatingStrategy)
    (data : StateChangeData) (now : ℤ)
    (h : s.need_defrost_cycle data now = true) :
    ∃ d, s.hvac_options.heating.defrost = some d ∧
      data.weather_temp ≤ d.temperature_threshold := by
  unfold HeatingStrategy.need_defrost_cycle at h
  cases hc : s.hvac_options.heating.defrost with
  | none => rw [hc] at h; simp at h
  | some d =>
    rw [hc] at h
    refine ⟨d, rfl, ?_⟩
    by_cases hw : data.weather_temp > d.temperature_threshold
    · simp [hw] at h
    · exact le_of_not_lt hw

/-- `_transition_to_idle` always lands in Idle. -/
theorem transition_to_idle_state (m : HVACStateMachine) :
    m.transition_to_idle.state = MasterState.idle := by
  unfold HVACStateMachine.transition_to_idle
  cases m.state <;> simp

/-- Claim C2 (amended): whenever an evaluation moves the master machine
into Defrost by starting a defrost cycle (the heating strategy was not
already defrosting), heating is enabled by the system mode (auto or
heat_only) and defrost is configured with the observation's outdoor
temperature at or below its threshold.  As a standing invariant over
all reachable states the property fails: the master may remain in
Defrost after the outdoor temperature rises above the threshold. -/
theorem c2_defrost_entry_sound (m : HVACStateMachine) (now : ℤ)
    (hcfg : m.heating_strategy.hvac_options = m.state_data.hvac_options)
    (hhs : m.heating_strategy.state ≠ HeatingState.defrosting)
    (hms : m.state ≠ MasterState.defrost)
    (hpost : (m.evaluate_conditions now).1.state = MasterState.defrost) :
    (m.state_data.hvac_options.system_mode = SystemMode.auto ∨
     m.state_data.hvac_options.system_mode = SystemMode.heat_only) ∧
    ∃ o d, m.state_data.outdoor_temp = some o ∧
      m.state_data.hvac_options.heating.defrost = some d ∧
      o ≤ d.temperature_threshold := by
  by_cases hv : m.state_data.has_valid_conditions = true
  case neg =>
    have hv' : m.state_data.has_valid_conditions = false :=
      Bool.not_eq_true _ ▸ Bool.of_not_eq_true hv
    rw [HVACStateMachine.evaluate_conditions] at hpost
    simp [hv'] at hpost
    exact absurd hpost hms
  case pos =>
  by_cases hsa : m.state_data.should_be_active = true
  case neg =>
    have hsa' : m.state_data.should_be_active = false :=
      Bool.not_eq_true _ ▸ Bool.of_not_eq_true hsa
    rw [HVACStateMachine.evaluate_conditions] at hpost
    simp [hv, hsa', transition_to_idle_state] at hpost
  case pos =>
  rw [HVACStateMachine.evaluate_conditions] at hpost
  simp only [hv, hsa, Bool.not_true, Bool.false_eq_true, if_false, if_neg] at hpost
  set data : StateChangeData :=
    { current_temp := pyOrQ m.state_data.current_temp 20
      weather_temp := pyOrQ m.state_data.outdoor_temp 20
      hour := pyOrI m.state_data.current_hour 12
      is_weekday := (m.state_data.is_weekday).getD true } with hdata
  cases htm : m.state_data.determine_target_mode with
  | auto =>
    rw [htm] at hpost
    unfold HVACStateMachine.execute_mode_transition_with_strategies at hpost
    rw [transition_to_idle_state] at hpost
    simp at hpost
  | off =>
    rw [htm] at hpost
    unfold HVACStateMachine.execute_mode_transition_with_strategies at hpost
    rw [transition_to_idle_state] at hpost
    simp at hpost
  | cool_only =>
    rw [htm] at hpost
    unfold HVACStateMachine.execute_mode_transition_with_strategies at hpost
    simp only at hpost
    split at hpost
    · split at hpost
      · simp at hpost
      · split at hpost
        · simp at hpost
        · exact absurd hpost hms
    · rw [transition_to_idle_state] at hpost; simp at hpost
  | heat_only =>
    have hmode : m.state_data.hvac_options.system_mode = SystemMode.auto ∨
        m.state_data.hvac_options.system_mode = SystemMode.heat_only := by
      cases hsm : m.state_data.hvac_options.system_mode
      · exact Or.inl rfl
      · exact Or.inr rfl
      · rw [HVACStateData.determine_target_mode, hsm] at htm; simp at htm
      · rw [HVACStateData.determine_target_mode, hsm] at htm; simp at htm
    refine ⟨hmode, ?_⟩
    rw [htm] at hpost
    unfold HVACStateMachine.execute_mode_transition_with_strategies at hpost
    simp only at hpost
    have hstarted :
        (m.heating_strategy.process_state_change data now).2 = "defrosting" := by
      split at hpost
      · split at hpost
        · simp at hpost
        · split at hpost
          · simp at hpost
          · exact absurd hpost hms
      · split at hpost
        · assumption
        · rw [transition_to_idle_state] at hpost; simp at hpost
    have hnd := heating_defrost_result_needs m.heating_strategy data now hhs hstarted
    obtain ⟨d, hd, hw⟩ := need_defrost_cycle_spec m.heating_strategy data now hnd
    rw [hcfg] at hd
    have hsome : m.state_data.outdoor_temp.isSome = true := by
      unfold HVACStateData.has_valid_conditions at hv
      exact (Bool.and_eq_true_iff.mp (Bool.and_eq_true_iff.mp hv).1).2
    obtain ⟨o, ho⟩ := Option.isSome_iff_exists.mp hsome
    refine ⟨o, d, ho, hd, ?_⟩
    have hwd : data.weather_temp = pyOrQ m.state_data.outdoor_temp 20 := by
      rw [hdata]
    rw [hwd, ho] at hw
    rw [show pyOrQ (some o) 20 = if o = 0 then 20 else o from rfl] at hw
    by_cases hzero : o = 0
    · rw [if_pos hzero] at hw
      rw [hzero]
      calc (0 : ℚ) ≤ 20 := by norm_num
        _ ≤ d.temperature_threshold := hw
    · rwa [if_neg hzero] at hw

/-- First evaluation of the C2 trace: defrost entry at instant 0 with
outdoor -5 (urgent heat, defrost needed). -/
def c2Step1 : HVACStateMachine × EvalResult :=
  (HVACStateMachine.init cexOptions).update_conditions 18 (-5) 14 true 0

/-- Second evaluation of the C2 trace: 10 s later the outdoor reading has
risen to 5, above the defrost threshold 0, while the 300 s cycle is
still running. -/
def c2Step2 : HVACStateMachine × EvalResult :=
  c2Step1.1.update_conditions 18 5 14 true 10

/-- The machine after the first C2 evaluation: master in Defrost, cycle
started at instant 0. -/
def c2M1 : HVACStateMachine :=
  ⟨⟨cexOptions, some 18, some (-5), some 14, some true, true⟩,
   ⟨cexOptions, .defrosting, none, some 0⟩,
   ⟨cexOptions, .cooling_off⟩,
   .defrost⟩

/-- The machine after the second C2 evaluation: still in Defrost, but
the stored outdoor observation is now 5. -/
def c2M2 : HVACStateMachine :=
  ⟨⟨cexOptions, some 18, some 5, some 14, some true, true⟩,
   ⟨cexOptions, .defrosting, none, some 0⟩,
   ⟨cexOptions, .cooling_off⟩,
   .defrost⟩

/-- Claim C2 counterexample: after the second evaluation the master
machine is still in Defrost although the last observation's outdoor
temperature, 5, is strictly above the configured defrost threshold 0 —
the invariant fails on a reachable state. -/
theorem c2_defrost_invariant_cex :
    c2Step1.1.state = MasterState.defrost ∧
    c2Step2.1.state = MasterState.defrost ∧
    c2Step2.1.state_data.outdoor_temp = some 5 ∧
    cexOptions.heating.defrost = some ⟨0, 3600, 300⟩ ∧
    ¬((5 : ℚ) ≤ (0 : ℚ)) ∧
    cexOptions.system_mode = SystemMode.auto := by
  have h1 : c2Step1 = (c2M1, EvalResult.mode HVACMode.off) := by
    set_option maxRecDepth 4000 in decide
  have h2 : c2M1.update_conditions 18 5 14 true 10 =
      (c2M2, EvalResult.mode HVACMode.off) := by
    set_option maxRecDepth 4000 in decide
  have hs2 : c2Step2 = (c2M2, EvalResult.mode HVACMode.off) := by
    show c2Step1.1.update_conditions 18 5 14 true 10 = _
    rw [h1]
    exact h2
  refine ⟨?_, ?_, ?_, rfl, by norm_num, rfl⟩
  · rw [h1]; rfl
  · rw [hs2]; rfl
  · rw [hs2]; rfl

/-- Master machine about to start a defrost cycle: urgent-heat
observation with outdoor -5 at or below the threshold 0. -/
def c2EntryMachine : HVACStateMachine :=
  ⟨⟨fixtureOptions, some 18, some (-5), some 14, some true, false⟩,
   ⟨fixtureOptions, .off, none, none⟩,
   ⟨fixtureOptions, .cooling_off⟩,
   .idle⟩

/-- Witness for the amended claim C2 at the concrete defrost-entry
machine. -/
theorem c2_defrost_entry_sound_witness :
    (c2EntryMachine.state_data.hvac_options.system_mode = SystemMode.auto ∨
     c2EntryMachine.state_data.hvac_options.system_mode = SystemMode.heat_only) ∧
    ∃ o d, c2EntryMachine.state_data.outdoor_temp = some o ∧
      c2EntryMachine.state_data.hvac_options.heating.defrost = some d ∧
      o ≤ d.temperature_threshold :=
  c2_defrost_entry_sound c2EntryMachine 0 rfl (by decide) (by decide)
    (by with_unfolding_all decide)

/-
Claim C3.
-/

/-- Claim C3 counterexample: in auto mode with an indoor reading of
exactly 0.0 (strictly below the fixture heating indoor minimum 19.7)
and outdoor 14 inside the heating outdoor range [-10, 15], arbitration
returns cool_only, not heat_only: the urgent-heat branch is guarded by
Python truthiness of `indoor_temp`, which 0.0 fails. -/
theorem c3_urgent_heat_zero_indoor_cex :
    fixtureOptions.system_mode = SystemMode.auto ∧
    (0 : ℚ) < (19.7 : ℚ) ∧
    (-10 : ℚ) ≤ (14 : ℚ) ∧ (14 : ℚ) ≤ (15 : ℚ) ∧
    HVACStateData.determine_target_mode
      ⟨fixtureOptions, some 0, some 14, some 14, some true, false⟩ =
      SystemMode.cool_only := by
  with_unfolding_all decide

/-- Claim C3 (amended): in auto mode, a NONZERO indoor reading strictly
below the heating indoor minimum with the outdoor reading inside the
heating outdoor range makes arbitration return heat_only. -/
theorem c3_urgent_heat_priority (sd : HVACStateData) (it ot : ℚ)
    (hmode : sd.hvac_options.system_mode = SystemMode.auto)
    (hit : sd.current_temp = some it) (hne : it ≠ 0)
    (hlow : it < sd.hvac_options.heating.temperature_thresholds.indoor_min)
    (hot : sd.outdoor_temp = some ot)
    (h1 : sd.hvac_options.heating.temperature_thresholds.outdoor_min ≤ ot)
    (h2 : ot ≤ sd.hvac_options.heating.temperature_thresholds.outdoor_max) :
    sd.determine_target_mode = SystemMode.heat_only := by
  simp [HVACStateData.determine_target_mode, hmode, hit, hot, hne, hlow, h1, h2]

/-- Witness for the amended claim C3: the urgent-heat scenario (indoor
18.0, outdoor 5.0). -/
theorem c3_urgent_heat_priority_witness :
    HVACStateData.determine_target_mode
      ⟨fixtureOptions, some 18, some 5, some 14, some true, false⟩ =
      SystemMode.heat_only :=
  c3_urgent_heat_priority _ 18 5 rfl rfl (by norm_num) (by norm_num [fixtureOptions])
    rfl (by norm_num [fixtureOptions]) (by norm_num [fixtureOptions])

/-
Claim C4.
-/

/-- Claim C4: the controller's `outdoor_temp or 20.0` substitution maps a
numeric reading of exactly 0.0 to 20.0, the same substitute used when
the outdoor fetch fails (`None`), and a value of 0.0 can never be
passed onward to the state machine. -/
theorem c4_outdoor_zero_reading_substituted :
    controller_outdoor_value (some 0) = 20 ∧
    controller_outdoor_value none = 20 ∧
    controller_outdoor_value (some 0) = controller_outdoor_value none ∧
    ∀ v : ℚ, controller_outdoor_value (some v) ≠ 0 := by
  refine ⟨rfl, rfl, rfl, ?_⟩
  intro v
  by_cases h : v = 0 <;> simp [controller_outdoor_value, pyOrQ, h]

/-
Claim C5.
-/

/-- Claim C5: with active hours configured, an evaluation whose observed
hour lies outside the canonical active range (weekday start `start`,
weekend start `start_weekday`, inclusive `end`) returns off, or `None`
when observations are missing; it never returns heat or cool. -/
theorem c5_outside_active_hours_off (m : HVACStateMachine) (now : ℤ)
    (ah : ActiveHours) (h : ℤ) (w : Bool)
    (hah : m.state_data.hvac_options.active_hours = some ah)
    (hh : m.state_data.current_hour = some h)
    (hw : m.state_data.is_weekday = some w)
    (hout : ¬((if w then ah.start else ah.start_weekday) ≤ h ∧ h ≤ ah.end_hour)) :
    (m.evaluate_conditions now).2 = EvalResult.mode HVACMode.off ∨
    (m.evaluate_conditions now).2 = EvalResult.noneResult := by
  by_cases hv : m.state_data.has_valid_conditions = true
  · left
    have hsba : m.state_data.should_be_active = false := by
      simp only [HVACStateData.should_be_active, hah, hh, hw, pyTruthyB]
      rcases not_and_or.mp hout with h1 | h1 <;> simp [h1]
    simp [HVACStateMachine.evaluate_conditions, hv, hsba]
  · right
    have hv' : m.state_data.has_valid_conditions = false :=
      Bool.not_eq_true _ ▸ Bool.of_not_eq_true hv
    simp [HVACStateMachine.evaluate_conditions, hv']

/-- Master machine under the fixture with active hours, observed on a
weekday at hour 6 (before the weekday start 8). -/
def c5Machine : HVACStateMachine :=
  ⟨⟨fixtureOptionsActive, some 18, some 5, some 6, some true, false⟩,
   ⟨fixtureOptionsActive, .off, none, none⟩,
   ⟨fixtureOptionsActive, .cooling_off⟩,
   .idle⟩

/-- Witness for claim C5: at hour 6 on a weekday (active range starts at
8) the evaluation returns off or `None`. -/
theorem c5_outside_active_hours_off_witness :
    (c5Machine.evaluate_conditions 0).2 = EvalResult.mode HVACMode.off ∨
    (c5Machine.evaluate_conditions 0).2 = EvalResult.noneResult :=
  c5_outside_active_hours_off c5Machine 0 ⟨8, 7, 21⟩ 6 true rfl rfl rfl
    (by decide)

/-
Claim C9.
-/

/-- Claim C9: an evaluation that returns off because the hour is outside
the master machine's active window leaves both strategy machines and
the defrost timestamps untouched; only the master state changes, to
Idle. -/
theorem c9_inactive_hours_frame (m : HVACStateMachine) (now : ℤ)
    (hv : m.state_data.has_valid_conditions = true)
    (ha : m.state_data.should_be_active = false) :
    (m.evaluate_conditions now).1.heating_strategy = m.heating_strategy ∧
    (m.evaluate_conditions now).1.cooling_strategy = m.cooling_strategy ∧
    (m.evaluate_conditions now).1.heating_strategy.defrost_last =
      m.heating_strategy.defrost_last ∧
    (m.evaluate_conditions now).1.heating_strategy.defrost_current =
      m.heating_strategy.defrost_current ∧
    (m.evaluate_conditions now).1.state = MasterState.idle ∧
    (m.evaluate_conditions now).2 = EvalResult.mode HVACMode.off := by
  have he : m.evaluate_conditions now = (m.transition_to_idle, .mode .off) := by
    simp [HVACStateMachine.evaluate_conditions, hv, ha]
  rw [he]
  unfold HVACStateMachine.transition_to_idle
  cases m.state <;> simp

/-- Witness for claim C9 at the concrete hour-6 weekday machine. -/
theorem c9_inactive_hours_frame_witness :
    (c5Machine.evaluate_conditions 0).1.heating_strategy =
      c5Machine.heating_strategy ∧
    (c5Machine.evaluate_conditions 0).1.cooling_strategy =
      c5Machine.cooling_strategy ∧
    (c5Machine.evaluate_conditions 0).1.heating_strategy.defrost_last =
      c5Machine.heating_strategy.defrost_last ∧
    (c5Machine.evaluate_conditions 0).1.heating_strategy.defrost_current =
      c5Machine.heating_strategy.defrost_current ∧
    (c5Machine.evaluate_conditions 0).1.state = MasterState.idle ∧
    (c5Machine.evaluate_conditions 0).2 = EvalResult.mode HVACMode.off :=
  c9_inactive_hours_frame c5Machine 0 (by decide) (by decide)

/-
Claim C6.
-/

/-- Client after initial connect. -/
def c6Client : HomeAssistantClient :=
  HomeAssistantClient.init.connect_success

/-- First id-bearing frame sent on the first connection. -/
def c6FirstSend : HomeAssistantClient × ℤ := c6Client.call_service

/-- Client after losing the connection and reconnecting. -/
def c6Reconnected : HomeAssistantClient :=
  (c6FirstSend.1.connection_lost).reconnect_success

/-- First id-bearing frame sent after the reconnect. -/
def c6SecondSend : HomeAssistantClient × ℤ := c6Reconnected.call_service

/-- Claim C6 counterexample: the first frame on the initial connection
carries id 1, but after a reconnect the next frame carries id 2, not 1:
`_reconnect` never resets `message_id`. -/
theorem c6_message_id_reset_cex :
    c6FirstSend.2 = 1 ∧ c6SecondSend.2 = 2 ∧ c6SecondSend.2 ≠ 1 := by
  decide

/-- Claim C6 (amended): message ids start at 1 at client construction and
increase by exactly 1 per id-bearing frame for the client's whole
lifetime; the reconnect procedure leaves the counter untouched, so the
first frame after a reconnect continues the sequence instead of
restarting at 1. -/
theorem c6_message_id_lifetime_monotone (c : HomeAssistantClient) :
    HomeAssistantClient.init.message_id = 1 ∧
    (c.connection_lost.reconnect_success).message_id = c.message_id ∧
    ((c.connection_lost.reconnect_success).call_service).2 = c.message_id ∧
    (c.call_service).2 = c.message_id ∧
    (c.call_service).1.message_id = c.message_id + 1 ∧
    (c.subscribe_events).2 = c.message_id ∧
    (c.subscribe_events).1.message_id = c.message_id + 1 := by
  refine ⟨rfl, rfl, rfl, rfl, rfl, rfl, rfl⟩

/-
Claim C7.
-/

/-- Master machine with indoor, outdoor and hour present but
`is_weekday` missing. -/
def c7Machine : HVACStateMachine :=
  ⟨⟨fixtureOptions, some 18, some 5, some 14, none, false⟩,
   ⟨fixtureOptions, .off, none, none⟩,
   ⟨fixtureOptions, .cooling_off⟩,
   .idle⟩

/-- Claim C7 counterexample: with `is_weekday` missing but the three
other observations present, `evaluate_conditions` does not return
`None` — the guard `_has_valid_conditions` never checks `is_weekday` —
and the master state changes (Idle to Heating). -/
theorem c7_missing_weekday_not_guarded_cex :
    c7Machine.state_data.is_weekday = none ∧
    (c7Machine.evaluate_conditions 0).2 = EvalResult.mode HVACMode.heat ∧
    (c7Machine.evaluate_conditions 0).2 ≠ EvalResult.noneResult ∧
    (c7Machine.evaluate_conditions 0).1.state ≠ c7Machine.state := by
  with_unfolding_all decide

/-- Claim C7 (amended): `evaluate_conditions` returns `None` with the
machine unchanged whenever the indoor temperature, the outdoor
temperature, or the hour is missing; a missing `is_weekday` alone is
not guarded. -/
theorem c7_missing_observation_returns_none (m : HVACStateMachine) (now : ℤ)
    (h : m.state_data.current_temp = none ∨ m.state_data.outdoor_temp = none ∨
         m.state_data.current_hour = none) :
    m.evaluate_conditions now = (m, EvalResult.noneResult) := by
  have hv : m.state_data.has_valid_conditions = false := by
    rcases h with h | h | h <;> simp [HVACStateData.has_valid_conditions, h]
  simp [HVACStateMachine.evaluate_conditions, hv]

/-- Witness for the amended claim C7: the freshly initialised machine has
all observations missing and evaluates to `None` unchanged. -/
theorem c7_missing_observation_returns_none_witness :
    (HVACStateMachine.init fixtureOptions).evaluate_conditions 0 =
      (HVACStateMachine.init fixtureOptions, EvalResult.noneResult) :=
  c7_missing_observation_returns_none (HVACStateMachine.init fixtureOptions) 0
    (Or.inl rfl)

/-
Claim C8.
-/

/-- With consistent heating indoor thresholds and a positive defrost
duration, re-running the heating strategy on its own output with the
same observation and instant reproduces that output, provided the first
run does not complete a defrost cycle. -/
theorem heating_process_idempotent (s : HeatingStrategy)
    (data : StateChangeData) (now : ℤ)
    (hth : s.hvac_options.heating.temperature_thresholds.indoor_min ≤
      s.hvac_options.heating.temperature_thresholds.indoor_max)
    (hdur : ∀ d, s.hvac_options.heating.defrost = some d → 0 < d.duration_seconds)
    (hnc : ¬(s.state = HeatingState.defrosting ∧
      s.is_defrost_cycle_completed now = true)) :
    (s.process_state_change data now).1.process_state_change data now =
      s.process_state_change data now := by
  have hlowhigh : s.is_temp_too_low data = true → s.is_temp_too_high data = false := by
    intro h
    unfold HeatingStrategy.is_temp_too_low at h
    unfold HeatingStrategy.is_temp_too_high
    simp only [decide_eq_true_eq] at h
    simp only [decide_eq_false_iff_not, not_lt]
    exact le_of_lt (lt_of_lt_of_le h hth)
  have hhighlow : s.is_temp_too_high data = true → s.is_temp_too_low data = false := by
    intro h
    unfold HeatingStrategy.is_temp_too_high at h
    unfold HeatingStrategy.is_temp_too_low
    simp only [decide_eq_true_eq] at h
    simp only [decide_eq_false_iff_not, not_lt]
    exact le_of_lt (lt_of_le_of_lt hth h)
  cases hst : s.state with
  | off =>
    by_cases hc : s.can_operate data = true
    · by_cases hl : s.is_temp_too_low data = true
      · by_cases hn : s.need_defrost_cycle data now = true
        · obtain ⟨d, hd, -⟩ := need_defrost_cycle_spec s data now hn
          have hp : s.process_state_change data now =
              ({ s with state := .defrosting, defrost_current := some now },
               "defrosting") := by
            simp [HeatingStrategy.process_state_change, hst, hc, hl, hn]
          rw [hp]
          have hcomp :
              ({ s with
                  state := HeatingState.defrosting,
                  defrost_current := some now } :
                HeatingStrategy).is_defrost_cycle_completed now = false := by
            simp only [HeatingStrategy.is_defrost_cycle_completed]
            rw [hd]
            show decide (now - now ≥ d.duration_seconds) = false
            simp only [decide_eq_false_iff_not, not_le]
            have := hdur d hd
            omega
          have hc' :
              ({ s with
                  state := HeatingState.defrosting,
                  defrost_current := some now } :
                HeatingStrategy).can_operate data = true := hc
          simp [HeatingStrategy.process_state_change, hcomp, hc']
        · have hn' : s.need_defrost_cycle data now = false := by simpa using hn
          have hp : s.process_state_change data now =
              ({ s with state := .heating }, "heating") := by
            simp [HeatingStrategy.process_state_change, hst, hc, hl, hn']
          rw [hp]
          have hc' : ({ s with state := HeatingState.heating } :
              HeatingStrategy).can_operate data = true := hc
          have hn2 : ({ s with state := HeatingState.heating } :
              HeatingStrategy).need_defrost_cycle data now = false := hn'
          have hh2 : ({ s with state := HeatingState.heating } :
              HeatingStrategy).is_temp_too_high data = false := hlowhigh hl
          simp [HeatingStrategy.process_state_change, hc', hn2, hh2]
      · have hl' : s.is_temp_too_low data = false := by simpa using hl
        have hp : s.process_state_change data now = (s, "off") := by
          simp [HeatingStrategy.process_state_change, hst, hl']
        rw [hp]
        exact hp
    · have hc' : s.can_operate data = false := by simpa using hc
      have hp : s.process_state_change data now = (s, "off") := by
        simp [HeatingStrategy.process_state_change, hst, hc']
      rw [hp]
      exact hp
  | heating =>
    by_cases hc : s.can_operate data = true
    · by_cases hn : s.need_defrost_cycle data now = true
      · obtain ⟨d, hd, -⟩ := need_defrost_cycle_spec s data now hn
        have hp : s.process_state_change data now =
            ({ s with state := .defrosting, defrost_current := some now },
             "defrosting") := by
          simp [HeatingStrategy.process_state_change, hst, hc, hn]
        rw [hp]
        have hcomp :
            ({ s with
                state := HeatingState.defrosting,
                defrost_current := some now } :
              HeatingStrategy).is_defrost_cycle_completed now = false := by
          simp only [HeatingStrategy.is_defrost_cycle_completed]
          rw [hd]
          show decide (now - now ≥ d.duration_seconds) = false
          simp only [decide_eq_false_iff_not, not_le]
          have := hdur d hd
          omega
        have hc' :
            ({ s with
                state := HeatingState.defrosting,
                defrost_current := some now } :
              HeatingStrategy).can_operate data = true := hc
        simp [HeatingStrategy.process_state_change, hcomp, hc']
      · have hn' : s.need_defrost_cycle data now = false := by simpa using hn
        by_cases hh : s.is_temp_too_high data = true
        · have hp : s.process_state_change data now =
              ({ s with state := .off }, "off") := by
            simp [HeatingStrategy.process_state_change, hst, hc, hn', hh]
          rw [hp]
          have hl2 : ({ s with state := HeatingState.off } :
              HeatingStrategy).is_temp_too_low data = false := hhighlow hh
          simp [HeatingStrategy.process_state_change, hl2]
        · have hh' : s.is_temp_too_high data = false := by simpa using hh
          have hp : s.process_state_change data now = (s, "heating") := by
            simp [HeatingStrategy.process_state_change, hst, hc, hn', hh']
          rw [hp]
          exact hp
    · have hc' : s.can_operate data = false := by simpa using hc
      have hp : s.process_state_change data now =
          ({ s with state := .off }, "off") := by
        simp [HeatingStrategy.process_state_change, hst, hc']
      rw [hp]
      have hc2 : ({ s with state := HeatingState.off } :
          HeatingStrategy).can_operate data = false := hc'
      simp [HeatingStrategy.process_state_change, hc2]
  | defrosting =>
    have hcomp : s.is_defrost_cycle_completed now = false := by
      cases hcb : s.is_defrost_cycle_completed now
      · rfl
      · exact absurd ⟨hst, hcb⟩ hnc
    by_cases hc : s.can_operate data = true
    · have hp : s.process_state_change data now = (s, "defrosting") := by
        simp [HeatingStrategy.process_state_change, hst, hcomp, hc]
      rw [hp]
      exact hp
    · have hc' : s.can_operate data = false := by simpa using hc
      have hp : s.process_state_change data now =
          ({ s with state := .off }, "off") := by
        simp [HeatingStrategy.process_state_change, hst, hcomp, hc']
      rw [hp]
      have hc2 : ({ s with state := HeatingState.off } :
          HeatingStrategy).can_operate data = false := hc'
      simp [HeatingStrategy.process_state_change, hc2]

/-- With consistent cooling indoor thresholds, re-running the cooling
strategy on its own output with the same observation reproduces that
output. -/
theorem cooling_process_idempotent (s : CoolingStrategy)
    (data : StateChangeData)
    (hth : s.hvac_options.cooling.temperature_thresholds.indoor_min ≤
      s.hvac_options.cooling.temperature_thresholds.indoor_max) :
    (s.process_state_change data).1.process_state_change data =
      s.process_state_change data := by
  have hlowhigh : s.is_temp_too_low data = true → s.is_temp_too_high data = false := by
    intro h
    unfold CoolingStrategy.is_temp_too_low at h
    unfold CoolingStrategy.is_temp_too_high
    simp only [decide_eq_true_eq] at h
    simp only [decide_eq_false_iff_not, not_lt]
    exact le_of_lt (lt_of_lt_of_le h hth)
  have hhighlow : s.is_temp_too_high data = true → s.is_temp_too_low data = false := by
    intro h
    unfold CoolingStrategy.is_temp_too_high at h
    unfold CoolingStrategy.is_temp_too_low
    simp only [decide_eq_true_eq] at h
    simp only [decide_eq_false_iff_not, not_lt]
    exact le_of_lt (lt_of_le_of_lt hth h)
  cases hst : s.state with
  | cooling_off =>
    by_cases hc : s.can_operate data = true
    · by_cases hh : s.is_temp_too_high data = true
      · have hp : s.process_state_change data =
            ({ s with state := .cooling }, "cooling") := by
          simp [CoolingStrategy.process_state_change, hst, hc, hh]
        rw [hp]
        have hc' : ({ s with state := CoolingState.cooling } :
            CoolingStrategy).can_operate data = true := hc
        have hl2 : ({ s with state := CoolingState.cooling } :
            CoolingStrategy).is_temp_too_low data = false := hhighlow hh
        simp [CoolingStrategy.process_state_change, hc', hl2]
      · have hh' : s.is_temp_too_high data = false := by simpa using hh
        have hp : s.process_state_change data = (s, "cooling_off") := by
          simp [CoolingStrategy.process_state_change, hst, hh']
        rw [hp]
        exact hp
    · have hc' : s.can_operate data = false := by simpa using hc
      have hp : s.process_state_change data = (s, "cooling_off") := by
        simp [CoolingStrategy.process_state_change, hst, hc']
      rw [hp]
      exact hp
  | cooling =>
    by_cases hc : s.can_operate data = true
    · by_cases hl : s.is_temp_too_low data = true
      · have hp : s.process_state_change data =
            ({ s with state := .cooling_off }, "cooling_off") := by
          simp [CoolingStrategy.process_state_change, hst, hl]
        rw [hp]
        have hh2 : ({ s with state := CoolingState.cooling_off } :
            CoolingStrategy).is_temp_too_high data = false := hlowhigh hl
        simp [CoolingStrategy.process_state_change, hh2]
      · have hl' : s.is_temp_too_low data = false := by simpa using hl
        have hp : s.process_state_change data = (s, "cooling") := by
          simp [CoolingStrategy.process_state_change, hst, hc, hl']
        rw [hp]
        exact hp
    · have hc' : s.can_operate data = false := by simpa using hc
      have hp : s.process_state_change data =
          ({ s with state := .cooling_off }, "cooling_off") := by
        simp [CoolingStrategy.process_state_change, hst, hc']
      rw [hp]
      have hc2 : ({ s with state := CoolingState.cooling_off } :
          CoolingStrategy).can_operate data = false := hc'
      simp [CoolingStrategy.process_state_change, hc2]

/-- `_transition_to_idle` is idempotent. -/
theorem transition_to_idle_idem (m : HVACStateMachine) :
    m.transition_to_idle.transition_to_idle = m.transition_to_idle := by
  unfold HVACStateMachine.transition_to_idle
  cases m.state <;> rfl

/-- If both strategies reproduce their outputs when re-run, one
`_execute_mode_transition_with_strategies` step is a fixed point of a
second identical step. -/
theorem exec_idempotent (m : HVACStateMachine) (target : SystemMode)
    (data : StateChangeData) (now : ℤ)
    (hheat : (m.heating_strategy.process_state_change data now).1.process_state_change
      data now = m.heating_strategy.process_state_change data now)
    (hcool : (m.cooling_strategy.process_state_change data).1.process_state_change
      data = m.cooling_strategy.process_state_change data) :
    ((m.execute_mode_transition_with_strategies target data now).1).execute_mode_transition_with_strategies
      target data now = m.execute_mode_transition_with_strategies target data now := by
  cases target with
  | heat_only =>
    by_cases h1 : (m.heating_strategy.process_state_change data now).2 = "heating"
    · cases hms : m.state <;>
        simp [HVACStateMachine.execute_mode_transition_with_strategies, h1, hms, hheat]
    · by_cases h2 : (m.heating_strategy.process_state_change data now).2 = "defrosting"
      · cases hms : m.state <;>
          simp [HVACStateMachine.execute_mode_transition_with_strategies, h1, h2, hms,
            hheat]
      · cases hms : m.state <;>
          simp [HVACStateMachine.execute_mode_transition_with_strategies, h1, h2, hms,
            hheat, HVACStateMachine.transition_to_idle]
  | cool_only =>
    by_cases h1 : (m.cooling_strategy.process_state_change data).2 = "cooling"
    · cases hms : m.state <;>
        simp [HVACStateMachine.execute_mode_transition_with_strategies, h1, hms, hcool]
    · cases hms : m.state <;>
        simp [HVACStateMachine.execute_mode_transition_with_strategies, h1, hms, hcool,
          HVACStateMachine.transition_to_idle]
  | auto =>
    cases hms : m.state <;>
      simp [HVACStateMachine.execute_mode_transition_with_strategies,
        HVACStateMachine.transition_to_idle, hms]
  | off =>
    cases hms : m.state <;>
      simp [HVACStateMachine.execute_mode_transition_with_strategies,
        HVACStateMachine.transition_to_idle, hms]

/-- One `_execute_mode_transition_with_strategies` step changes the
observation container at most in its `defrost_needed` flag. -/
theorem exec_state_data_dn (m : HVACStateMachine) (target : SystemMode)
    (data : StateChangeData) (now : ℤ) :
    ∃ b, (m.execute_mode_transition_with_strategies target data now).1.state_data =
      { m.state_data with defrost_needed := b } := by
  have hid : ∀ mm : HVACStateMachine, mm.state_data = m.state_data →
      ∃ b, mm.transition_to_idle.state_data =
        { m.state_data with defrost_needed := b } := by
    intro mm hmm
    unfold HVACStateMachine.transition_to_idle
    cases mm.state
    · exact ⟨m.state_data.defrost_needed, by rw [hmm]⟩
    · exact ⟨m.state_data.defrost_needed, by rw [hmm]⟩
    · exact ⟨m.state_data.defrost_needed, by rw [hmm]⟩
    · exact ⟨false, by rw [hmm]⟩
  cases target with
  | heat_only =>
    by_cases h1 : (m.heating_strategy.process_state_change data now).2 = "heating"
    · cases hms : m.state <;>
        · refine ⟨m.state_data.defrost_needed, ?_⟩
          simp [HVACStateMachine.execute_mode_transition_with_strategies, h1, hms]
    · by_cases h2 : (m.heating_strategy.process_state_change data now).2 = "defrosting"
      · cases hms : m.state <;>
          · refine ⟨m.state_data.defrost_needed, ?_⟩
            simp [HVACStateMachine.execute_mode_transition_with_strategies, h1, h2, hms]
      · simp only [HVACStateMachine.execute_mode_transition_with_strategies, h1, h2,
          if_false, if_neg]
        exact hid _ rfl
  | cool_only =>
    by_cases h1 : (m.cooling_strategy.process_state_change data).2 = "cooling"
    · cases hms : m.state <;>
        · refine ⟨m.state_data.defrost_needed, ?_⟩
          simp [HVACStateMachine.execute_mode_transition_with_strategies, h1, hms]
    · simp only [HVACStateMachine.execute_mode_transition_with_strategies, h1,
        if_false, if_neg]
      exact hid _ rfl
  | auto =>
    simp only [HVACStateMachine.execute_mode_transition_with_strategies]
    exact hid _ rfl
  | off =>
    simp only [HVACStateMachine.execute_mode_transition_with_strategies]
    exact hid _ rfl

/-- Claim C8 (amended): with consistent indoor thresholds on both
strategies, a positive defrost duration, and a first evaluation that
does not complete a defrost cycle, evaluating again with identical
observations and instant reproduces the machine and the returned mode
exactly. -/
theorem c8_evaluate_idempotent (m : HVACStateMachine) (now : ℤ)
    (hth : m.heating_strategy.hvac_options.heating.temperature_thresholds.indoor_min ≤
      m.heating_strategy.hvac_options.heating.temperature_thresholds.indoor_max)
    (hcth : m.cooling_strategy.hvac_options.cooling.temperature_thresholds.indoor_min ≤
      m.cooling_strategy.hvac_options.cooling.temperature_thresholds.indoor_max)
    (hdur : ∀ d, m.heating_strategy.hvac_options.heating.defrost = some d →
      0 < d.duration_seconds)
    (hnc : ¬(m.heating_strategy.state = HeatingState.defrosting ∧
      m.heating_strategy.is_defrost_cycle_completed now = true)) :
    (m.evaluate_conditions now).1.evaluate_conditions now =
      m.evaluate_conditions now := by
  by_cases hv : m.state_data.has_valid_conditions = true
  case neg =>
    have hv' : m.state_data.has_valid_conditions = false := by simpa using hv
    have hE : m.evaluate_conditions now = (m, .noneResult) := by
      simp [HVACStateMachine.evaluate_conditions, hv']
    rw [hE]
    exact hE
  case pos =>
  by_cases hsa : m.state_data.should_be_active = true
  case neg =>
    have hsa' : m.state_data.should_be_active = false := by simpa using hsa
    have hE : m.evaluate_conditions now = (m.transition_to_idle, .mode .off) := by
      simp [HVACStateMachine.evaluate_conditions, hv, hsa']
    rw [hE]
    have hsd : ∃ b, m.transition_to_idle.state_data =
        { m.state_data with defrost_needed := b } := by
      unfold HVACStateMachine.transition_to_idle
      cases m.state
      · exact ⟨m.state_data.defrost_needed, rfl⟩
      · exact ⟨m.state_data.defrost_needed, rfl⟩
      · exact ⟨m.state_data.defrost_needed, rfl⟩
      · exact ⟨false, rfl⟩
    obtain ⟨b, hb⟩ := hsd
    have hv2 : m.transition_to_idle.state_data.has_valid_conditions = true := by
      rw [hb]; exact hv
    have hsa2 : m.transition_to_idle.state_data.should_be_active = false := by
      rw [hb]; exact hsa'
    simp [HVACStateMachine.evaluate_conditions, hv2, hsa2, transition_to_idle_idem]
  case pos =>
  have hE : m.evaluate_conditions now =
      m.execute_mode_transition_with_strategies m.state_data.determine_target_mode
        { current_temp := pyOrQ m.state_data.current_temp 20
          weather_temp := pyOrQ m.state_data.outdoor_temp 20
          hour := pyOrI m.state_data.current_hour 12
          is_weekday := (m.state_data.is_weekday).getD true } now := by
    simp [HVACStateMachine.evaluate_conditions, hv, hsa]
  obtain ⟨b, hb⟩ := exec_state_data_dn m m.state_data.determine_target_mode
    { current_temp := pyOrQ m.state_data.current_temp 20
      weather_temp := pyOrQ m.state_data.outdoor_temp 20
      hour := pyOrI m.state_data.current_hour 12
      is_weekday := (m.state_data.is_weekday).getD true } now
  rw [hE]
  set data : StateChangeData :=
    { current_temp := pyOrQ m.state_data.current_temp 20
      weather_temp := pyOrQ m.state_data.outdoor_temp 20
      hour := pyOrI m.state_data.current_hour 12
      is_weekday := (m.state_data.is_weekday).getD true } with hdata
  set target := m.state_data.determine_target_mode with htarget
  set P := m.execute_mode_transition_with_strategies target data now with hP
  have hv2 : P.1.state_data.has_valid_conditions = true := by
    rw [hb]; exact hv
  have hsa2 : P.1.state_data.should_be_active = true := by
    rw [hb]; exact hsa
  have e1 : P.1.state_data.current_temp = m.state_data.current_temp := by rw [hb]
  have e2 : P.1.state_data.outdoor_temp = m.state_data.outdoor_temp := by rw [hb]
  have e3 : P.1.state_data.current_hour = m.state_data.current_hour := by rw [hb]
  have e4 : P.1.state_data.is_weekday = m.state_data.is_weekday := by rw [hb]
  have e5 : P.1.state_data.determine_target_mode =
      m.state_data.determine_target_mode := by rw [hb]; exact rfl
  have hE2 : P.1.evaluate_conditions now =
      P.1.execute_mode_transition_with_strategies target data now := by
    simp only [HVACStateMachine.evaluate_conditions, hv2, hsa2, Bool.not_true,
      Bool.false_eq_true, if_false]
    rw [e1, e2, e3, e4, e5]
  rw [hE2, hP]
  exact exec_idempotent m target data now
    (heating_process_idempotent m.heating_strategy data now hth hdur hnc)
    (cooling_process_idempotent m.cooling_strategy data hcth)

/-- First C8 evaluation: from `c2M1` (master Defrost, cycle started at
instant 0) at instant 301, past the 300 s duration, so the cycle
completes. -/
def c8Eval1 : HVACStateMachine × EvalResult := c2M1.evaluate_conditions 301

/-- Second C8 evaluation with identical observations and instant. -/
def c8Eval2 : HVACStateMachine × EvalResult := c8Eval1.1.evaluate_conditions 301

/-- Machine after the first C8 evaluation: the completed cycle sets
`defrost_last := 301`, clears `defrost_current`, and the master drops
to Idle (clearing `defrost_needed`). -/
def c8M1 : HVACStateMachine :=
  ⟨⟨cexOptions, some 18, some (-5), some 14, some true, false⟩,
   ⟨cexOptions, .off, some 301, none⟩,
   ⟨cexOptions, .cooling_off⟩,
   .idle⟩

/-- Machine after the second C8 evaluation: with `defrost_last` fresh,
the defrost period gate fails and urgent heating starts. -/
def c8M2 : HVACStateMachine :=
  ⟨⟨cexOptions, some 18, some (-5), some 14, some true, false⟩,
   ⟨cexOptions, .heating, some 301, none⟩,
   ⟨cexOptions, .cooling_off⟩,
   .heating⟩

/-- Claim C8 counterexample: from a reachable state whose evaluation
completes a defrost cycle, re-evaluating with identical observations
and instant yields a different master state (Idle then Heating) and a
different returned mode (off then heat). -/
theorem c8_idempotence_cex :
    c8Eval1.2 = EvalResult.mode HVACMode.off ∧
    c8Eval1.1.state = MasterState.idle ∧
    c8Eval2.2 = EvalResult.mode HVACMode.heat ∧
    c8Eval2.1.state = MasterState.heating ∧
    c8Eval2.2 ≠ c8Eval1.2 ∧
    c8Eval2.1.state ≠ c8Eval1.1.state := by
  have h1 : c8Eval1 = (c8M1, EvalResult.mode HVACMode.off) := by
    set_option maxRecDepth 4000 in decide
  have h2 : c8M1.evaluate_conditions 301 = (c8M2, EvalResult.mode HVACMode.heat) := by
    set_option maxRecDepth 4000 in decide
  have hs2 : c8Eval2 = (c8M2, EvalResult.mode HVACMode.heat) := by
    show c8Eval1.1.evaluate_conditions 301 = _
    rw [h1]
    exact h2
  rw [h1, hs2]
  refine ⟨rfl, rfl, rfl, rfl, by decide, by decide⟩

/-- Machine about to start plain heating under the integer fixture
(indoor 18 below minimum, outdoor 5 above the defrost threshold). -/
def c8Witness : HVACStateMachine :=
  ⟨⟨cexOptions, some 18, some 5, some 14, some true, false⟩,
   ⟨cexOptions, .off, none, none⟩,
   ⟨cexOptions, .cooling_off⟩,
   .idle⟩

/-- Witness for the amended claim C8 at a concrete machine whose
evaluation starts heating. -/
theorem c8_evaluate_idempotent_witness :
    (c8Witness.evaluate_conditions 0).1.evaluate_conditions 0 =
      c8Witness.evaluate_conditions 0 :=
  c8_evaluate_idempotent c8Witness 0 (by decide) (by decide)
    (by
      intro d hd
      have hde : (⟨0, 3600, 300⟩ : DefrostOptions) = d := by
        injection hd
      rw [← hde]
      decide)
    (by decide)

/-
Claim C10.
-/

/-- Claim C10: a text frame of type "event" whose event body fails to
parse yields a `WebSocketMessage` with `event = None`, dispatches to no
registered handler, and the receive loop continues. -/
theorem c10_event_parse_failure_isolated (parse_ts : String → Option ℤ)
    (raw : RawWsMessage) (re : RawEvent) (handlers : List (String × List ℕ))
    (htype : raw.type_field = some "event")
    (hev : raw.event_field = some re)
    (hfail : HassEvent.from_dict parse_ts re = none) :
    (WebSocketMessage.from_dict parse_ts raw).event = none ∧
    handle_message (WebSocketMessage.from_dict parse_ts raw) handlers = [] ∧
    message_loop_step (.text raw) = LoopAction.continue_loop := by
  simp [WebSocketMessage.from_dict, handle_message, message_loop_step,
        htype, hev, hfail]

/-- Event body with a present type but a timestamp its parser rejects. -/
def c10RawEvent : RawEvent :=
  ⟨some "state_changed", none, none, some "not-a-timestamp"⟩

/-- Frame of type "event" wrapping `c10RawEvent`. -/
def c10RawFrame : RawWsMessage :=
  ⟨some "event", some 7, none, none, none, some c10RawEvent⟩

/-- Witness for claim C10 at a concrete frame, with a timestamp parser
that rejects every string and one handler registered for
"state_changed". -/
theorem c10_event_parse_failure_isolated_witness :
    (WebSocketMessage.from_dict (fun _ => none) c10RawFrame).event = none ∧
    handle_message (WebSocketMessage.from_dict (fun _ => none) c10RawFrame)
      [("state_changed", [0])] = [] ∧
    message_loop_step (.text c10RawFrame) = LoopAction.continue_loop :=
  c10_event_parse_failure_isolated (fun _ => none) c10RawFrame c10RawEvent
    [("state_changed", [0])] rfl rfl rfl

end Hag
